import Mathlib

/-!
Shallow embedding of the query-routing and workflow-orchestration core of
the portfolio-copilot repository, together with proofs about its claims.

Python floats are modelled as `ℚ` (all the arithmetic the claims touch is
exact decimal arithmetic), Python ints as `Int`/`Nat`, `None`-able values
as `Option`, and dictionaries as association lists.
-/

/-! ### `src/data/scrapers/screener.py` — `FundamentalData` -/

/-- Embedding of the `FundamentalData` dataclass.  The human-readable
string fields that no claim touches (`name`, `sector`, `industry`,
`pros`, `cons`) are kept as plain data; numeric defaults are 0 as in the
dataclass. -/
structure FundamentalData where
  symbol : String
  name : String := ""
  market_cap : ℚ := 0
  current_price : ℚ := 0
  pe_ratio : ℚ := 0
  pb_ratio : ℚ := 0
  dividend_yield : ℚ := 0
  roe : ℚ := 0
  roce : ℚ := 0
  profit_margin : ℚ := 0
  revenue_growth_3yr : ℚ := 0
  profit_growth_3yr : ℚ := 0
  debt_to_equity : ℚ := 0
  current_ratio : ℚ := 0
  interest_coverage : ℚ := 0
  promoter_holding : ℚ := 0
  promoter_holding_change : ℚ := 0
  pros : List String := []
  cons : List String := []
  sector : String := ""
  industry : String := ""
  book_value : ℚ := 0
  face_value : ℚ := 0
  high_52w : ℚ := 0
  low_52w : ℚ := 0
  error : Option String := none

/-! ### `src/agents/workflows/fundamental_analysis.py` — scoring -/

/-- Embedding of the `FundamentalScore` dataclass.  The `*_notes` lists
(purely presentational strings formatted from the ratios) are elided;
they feed into no computation. -/
structure FundamentalScore where
  valuation_score : Int := 0
  profitability_score : Int := 0
  growth_score : Int := 0
  financial_health_score : Int := 0
  promoter_score : Int := 0

/-- `FundamentalScore.total_score`: sum of the five category scores. -/
def FundamentalScore.total_score (s : FundamentalScore) : Int :=
  s.valuation_score + s.profitability_score + s.growth_score
    + s.financial_health_score + s.promoter_score

/-- `FundamentalScore.recommendation`: the five-level band on the total
score, transcribed from the `if score >= 5 … else` chain. -/
def FundamentalScore.recommendation (s : FundamentalScore) : String :=
  if 5 ≤ s.total_score then "STRONG BUY"
  else if 2 ≤ s.total_score then "BUY"
  else if -1 ≤ s.total_score then "HOLD"
  else if -4 ≤ s.total_score then "SELL"
  else "STRONG SELL"

/-- `max(-2, min(2, x))` — the per-category cap applied at the end of each
category block in `analyze_fundamentals`. -/
def capCategory (x : Int) : Int := max (-2) (min 2 x)

/-- Embedding of `analyze_fundamentals`.  Each category accumulates its
increments in source order and is then capped to `[-2, 2]`; summing the
contributions before capping is equivalent to the source's in-place
`+=`/`-=` sequence because nothing reads the partial sums. -/
def analyzeFundamentals (data : FundamentalData) : FundamentalScore :=
  -- 1. Valuation
  let valuation : Int :=
    (if 0 < data.pe_ratio then
       if data.pe_ratio < 15 then 2
       else if data.pe_ratio < 25 then 1
       else if data.pe_ratio < 40 then 0
       else -1
     else 0)
    + (if 0 < data.pb_ratio then
         if data.pb_ratio < 2 then 1
         else if 5 < data.pb_ratio then -1
         else 0
       else 0)
    + (if 2 < data.dividend_yield then 1 else 0)
  -- 2. Profitability
  let profitability : Int :=
    (if 0 < data.roe then
       if 20 ≤ data.roe then 2
       else if 15 ≤ data.roe then 1
       else if 10 ≤ data.roe then 0
       else -1
     else 0)
    + (if 0 < data.roce then
         if 20 ≤ data.roce then 1
         else if data.roce < 10 then -1
         else 0
       else 0)
  -- 3. Growth
  let growth : Int :=
    (if 0 < data.revenue_growth_3yr then
       if 15 ≤ data.revenue_growth_3yr then 1
       else if data.revenue_growth_3yr < 5 then -1
       else 0
     else 0)
    + (if 0 < data.profit_growth_3yr then
         if 15 ≤ data.profit_growth_3yr then 1
         else if data.profit_growth_3yr < 5 then -1
         else 0
       else 0)
  -- 4. Financial health
  let financialHealth : Int :=
    (if 0 ≤ data.debt_to_equity then
       if data.debt_to_equity < mkRat 1 2 then 2
       else if data.debt_to_equity < 1 then 1
       else if data.debt_to_equity < 2 then 0
       else -2
     else 0)
    + (if 0 < data.current_ratio then
         if 2 ≤ data.current_ratio then 1
         else if data.current_ratio < 1 then -1
         else 0
       else 0)
  -- 5. Promoter holding
  let promoter : Int :=
    (if 0 < data.promoter_holding then
       if 60 ≤ data.promoter_holding then 1
       else if data.promoter_holding < 30 then -1
       else 0
     else 0)
    + (if data.promoter_holding_change ≠ 0 then
         if 0 < data.promoter_holding_change then 1
         else if data.promoter_holding_change < -2 then -1
         else 0
       else 0)
  { valuation_score := capCategory valuation
    profitability_score := capCategory profitability
    growth_score := capCategory growth
    financial_health_score := capCategory financialHealth
    promoter_score := capCategory promoter }

/-- A `FundamentalData` whose numeric fields all hold their default
values (all zeros). -/
def allDefaultFundamentalData : FundamentalData := { symbol := "X" }

/-- C2: for every `FundamentalScore`, the recommendation is exactly the
five-level band on the total score: `≥5` is STRONG BUY (5 inclusive),
`[2,5)` is BUY (so exactly 4 gives BUY), `[-1,2)` is HOLD, `[-4,-1)` is
SELL, and anything below -4 is STRONG SELL. -/
theorem recommendation_band_characterization (s : FundamentalScore) :
    (s.recommendation = "STRONG BUY" ↔ 5 ≤ s.total_score)
    ∧ (s.recommendation = "BUY" ↔ 2 ≤ s.total_score ∧ s.total_score < 5)
    ∧ (s.recommendation = "HOLD" ↔ -1 ≤ s.total_score ∧ s.total_score < 2)
    ∧ (s.recommendation = "SELL" ↔ -4 ≤ s.total_score ∧ s.total_score < -1)
    ∧ (s.recommendation = "STRONG SELL" ↔ s.total_score < -4) := by
  unfold FundamentalScore.recommendation
  split_ifs with h1 h2 h3 h4 <;>
    refine ⟨?_, ?_, ?_, ?_, ?_⟩ <;>
    constructor <;>
    intro h <;>
    first
      | rfl
      | omega
      | (exact absurd h (by decide))

/-- C1 counterexample: on an all-default `FundamentalData` (all numeric
fields zero), `analyze_fundamentals` does NOT produce a HOLD
recommendation — `debt_to_equity = 0` passes the `0 ≤ d/e < 0.5` test,
credits `financial_health_score` with +2, and the total of 2 lands in
the BUY band. -/
theorem analyzeFundamentals_default_not_hold :
    (analyzeFundamentals allDefaultFundamentalData).recommendation ≠ "HOLD" := by
  intro h
  rw [show (analyzeFundamentals allDefaultFundamentalData).recommendation = "BUY" from rfl] at h
  exact absurd h (by decide)

/-- C1 amended: on an all-default `FundamentalData`, `analyze_fundamentals`
produces total score 2 (entirely from the financial-health category,
where a zero debt-to-equity counts as low debt) and recommendation BUY. -/
theorem analyzeFundamentals_default_is_buy :
    (analyzeFundamentals allDefaultFundamentalData).total_score = 2
    ∧ (analyzeFundamentals allDefaultFundamentalData).recommendation = "BUY" :=
  ⟨rfl, rfl⟩

/-! ### `src/agents/tools/symbol_tools.py` — symbol extraction -/

/-- Python regex word character (`\w` over ASCII): letter, digit or
underscore; determines `\b` boundaries. -/
def isWordChar (c : Char) : Bool := c.isAlpha || c.isDigit || c = '_'

/-- The character class `[A-Z0-9&-]` (case-sensitive). -/
def isTickerChar (c : Char) : Bool := c.isUpper || c.isDigit || c = '&' || c = '-'

/-- The class `[A-Z0-9&-]` under `re.IGNORECASE`, which is also
`[a-zA-Z0-9&-]` as used by strategy 4. -/
def isAlnumAmpDash (c : Char) : Bool := c.isAlpha || c.isDigit || c = '&' || c = '-'

/-- `\b` at the position in front of `c`, where `prev` is the preceding
character (`none` at the start of the string). -/
def boundaryBefore (prev : Option Char) (c : Char) : Bool :=
  match prev with
  | none => isWordChar c
  | some p => isWordChar p != isWordChar c

/-- `\b` at the position after a consumed character `last`, where `next`
is the following character (`none` at the end of the string). -/
def boundaryAfter (last : Char) (next : Option Char) : Bool :=
  match next with
  | none => isWordChar last
  | some n => isWordChar last != isWordChar n

/-- Backtracking for the greedy `{1,14}` body of a token followed by
`\b`: try body lengths from the greedy maximum down to 1 and keep the
first (longest) one whose end sits on a word boundary.  `c0` is the
token's first character, `body` the maximal (≤ 14) run of body-class
characters after it, `rest` whatever follows that run. -/
def bodyBacktrack (c0 : Char) (body rest : List Char) : Nat → Option Nat
  | 0 => none
  | k + 1 =>
    let last := (body.take (k + 1)).getLastD c0
    let next := (body.drop (k + 1) ++ rest).head?
    if boundaryAfter last next then some (k + 1) else bodyBacktrack c0 body rest k

/-- Match a token `[pstart][pbody]{1,14}\b` at the head of `l` (the
leading `\b` is the caller's responsibility).  Returns the token and the
remaining characters. -/
def matchToken (pstart pbody : Char → Bool) (l : List Char) : Option (List Char × List Char) :=
  match l with
  | [] => none
  | c0 :: rest =>
    if pstart c0 then
      let body := (rest.takeWhile pbody).take 14
      let after := rest.drop body.length
      match bodyBacktrack c0 body after body.length with
      | some k => some (c0 :: body.take k, body.drop k ++ after)
      | none => none
    else none

/-- `re.findall` of `\b([pstart][pbody]{1,14})\b`: left-to-right,
non-overlapping scan.  `fuel` starts at the string length (each step
consumes at least one character). -/
def findTokensAux (pstart pbody : Char → Bool) : Nat → Option Char → List Char → List (List Char)
  | 0, _, _ => []
  | _ + 1, _, [] => []
  | fuel + 1, prev, c :: rest =>
    match (if boundaryBefore prev c then matchToken pstart pbody (c :: rest) else none) with
    | some (tok, rest2) => tok :: findTokensAux pstart pbody fuel (some (tok.getLastD c)) rest2
    | none => findTokensAux pstart pbody fuel (some c) rest

/-- All `\b([pstart][pbody]{1,14})\b` tokens of a string, in order. -/
def findTokens (pstart pbody : Char → Bool) (s : String) : List String :=
  (findTokensAux pstart pbody s.data.length none s.data).map (fun cs => String.mk cs)

/-- Match `(?:NSE|BSE):([A-Z][A-Z0-9&-]{1,14})\b` (with `re.IGNORECASE`)
at the head of `l`, returning the captured ticker. -/
def matchExchangeAt (l : List Char) : Option (List Char) :=
  match l with
  | e1 :: e2 :: e3 :: c4 :: rest =>
    if ((e1.toLower = 'n' || e1.toLower = 'b') && e2.toLower = 's' && e3.toLower = 'e'
        && c4 = ':') then
      match matchToken (fun c => c.isAlpha) isAlnumAmpDash rest with
      | some (tok, _) => some tok
      | none => none
    else none
  | _ => none

/-- `re.search` of `\b(?:NSE|BSE):([A-Z][A-Z0-9&-]{1,14})\b` with
`re.IGNORECASE` (strategy 0 of `extract_symbol`): leftmost match wins. -/
def exchangeSearchAux : Nat → Option Char → List Char → Option (List Char)
  | 0, _, _ => none
  | _ + 1, _, [] => none
  | fuel + 1, prev, c :: rest =>
    match (if boundaryBefore prev c then matchExchangeAt (c :: rest) else none) with
    | some tok => some tok
    | none => exchangeSearchAux fuel (some c) rest

/-- Strategy-0 search over a whole query string. -/
def exchangeSearch (s : String) : Option String :=
  (exchangeSearchAux s.data.length none s.data).map (fun cs => String.mk cs)

/-- Python `str.lower()` (kernel-computable: `String.toLower` is opaque
to the kernel). -/
def strLower (s : String) : String := String.mk (s.data.map Char.toLower)

/-- Python `str.upper()`. -/
def strUpper (s : String) : String := String.mk (s.data.map Char.toUpper)

/-- Python `str.strip()`: drop leading and trailing whitespace. -/
def strTrim (s : String) : String :=
  String.mk (((s.data.dropWhile Char.isWhitespace).reverse.dropWhile Char.isWhitespace).reverse)

/-- Python `pat in s` (substring containment). -/
def strContains (s pat : String) : Bool :=
  (List.range (s.data.length - pat.data.length + 1)).any
    (fun i => pat.data.isPrefixOf (s.data.drop i))

/-- A single-quote character, used inside a few alias keys. -/
def squote : String := String.singleton (Char.ofNat 39)

/-- The hand-curated `_MANUAL_ALIASES` table (lowercase alias key →
canonical ticker), in source order. -/
def manualAliases : List (String × String) := [
  ("reliance", "RELIANCE"),
  ("reliance industries", "RELIANCE"),
  ("tcs", "TCS"),
  ("tata consultancy", "TCS"),
  ("tata consultancy services", "TCS"),
  ("infosys", "INFY"),
  ("infy", "INFY"),
  ("hdfc bank", "HDFCBANK"),
  ("hdfc", "HDFCBANK"),
  ("icici bank", "ICICIBANK"),
  ("icici", "ICICIBANK"),
  ("sbi", "SBIN"),
  ("state bank", "SBIN"),
  ("state bank of india", "SBIN"),
  ("wipro", "WIPRO"),
  ("bharti airtel", "BHARTIARTL"),
  ("airtel", "BHARTIARTL"),
  ("bharti", "BHARTIARTL"),
  ("kotak", "KOTAKBANK"),
  ("kotak bank", "KOTAKBANK"),
  ("kotak mahindra", "KOTAKBANK"),
  ("axis bank", "AXISBANK"),
  ("axis", "AXISBANK"),
  ("itc", "ITC"),
  ("larsen", "LT"),
  ("larsen & toubro", "LT"),
  ("l&t", "LT"),
  ("asian paints", "ASIANPAINT"),
  ("asianpaint", "ASIANPAINT"),
  ("maruti", "MARUTI"),
  ("maruti suzuki", "MARUTI"),
  ("bajaj finance", "BAJFINANCE"),
  ("bajaj finserv", "BAJAJFINSV"),
  ("bajaj auto", "BAJAJ-AUTO"),
  ("hul", "HINDUNILVR"),
  ("hindustan unilever", "HINDUNILVR"),
  ("sun pharma", "SUNPHARMA"),
  ("sun pharmaceutical", "SUNPHARMA"),
  ("tech mahindra", "TECHM"),
  ("techmahindra", "TECHM"),
  ("titan", "TITAN"),
  ("titan company", "TITAN"),
  ("adani ports", "ADANIPORTS"),
  ("adani green", "ADANIGREEN"),
  ("adani enterprises", "ADANIENT"),
  ("adani", "ADANIENT"),
  ("power grid", "POWERGRID"),
  ("powergrid", "POWERGRID"),
  ("ntpc", "NTPC"),
  ("nestle", "NESTLEIND"),
  ("nestle india", "NESTLEIND"),
  ("ultratech", "ULTRACEMCO"),
  ("ultratech cement", "ULTRACEMCO"),
  ("tata motors", "TATAMOTORS"),
  ("tata steel", "TATASTEEL"),
  ("jio", "JIOFIN"),
  ("jio financial", "JIOFIN"),
  ("hcl", "HCLTECH"),
  ("hcl tech", "HCLTECH"),
  ("hcl technologies", "HCLTECH"),
  ("ongc", "ONGC"),
  ("oil and natural gas", "ONGC"),
  ("coal india", "COALINDIA"),
  ("jsw steel", "JSWSTEEL"),
  ("jsw", "JSWSTEEL"),
  ("m&m", "M&M"),
  ("mahindra", "M&M"),
  ("mahindra & mahindra", "M&M"),
  ("hero motocorp", "HEROMOTOCO"),
  ("hero", "HEROMOTOCO"),
  ("eicher motors", "EICHERMOT"),
  ("eicher", "EICHERMOT"),
  ("grasim", "GRASIM"),
  ("grasim industries", "GRASIM"),
  ("hindalco", "HINDALCO"),
  ("hindalco industries", "HINDALCO"),
  ("cipla", "CIPLA"),
  ("dr reddy", "DRREDDY"),
  ("dr reddys", "DRREDDY"),
  ("dr reddy" ++ squote ++ "s", "DRREDDY"),
  ("divis", "DIVISLAB"),
  ("divis lab", "DIVISLAB"),
  ("divi" ++ squote ++ "s", "DIVISLAB"),
  ("britannia", "BRITANNIA"),
  ("apollo hospitals", "APOLLOHOSP"),
  ("apollo", "APOLLOHOSP"),
  ("indusind bank", "INDUSINDBK"),
  ("indusind", "INDUSINDBK"),
  ("sbi life", "SBILIFE"),
  ("hdfc life", "HDFCLIFE"),
  ("tata consumer", "TATACONSUM"),
  ("tata consumer products", "TATACONSUM"),
  ("upl", "UPL"),
  ("bpcl", "BPCL"),
  ("bharat petroleum", "BPCL"),
  ("zomato", "ZOMATO"),
  ("paytm", "PAYTM"),
  ("one97", "PAYTM"),
  ("nykaa", "NYKAA"),
  ("fsn e-commerce", "NYKAA"),
  ("policybazaar", "POLICYBZR"),
  ("pb fintech", "POLICYBZR"),
  ("delhivery", "DELHIVERY"),
  ("vedanta", "VEDL"),
  ("vedl", "VEDL"),
  ("tata power", "TATAPOWER"),
  ("tata elxsi", "TATAELXSI"),
  ("irctc", "IRCTC"),
  ("indian railway", "IRCTC"),
  ("pidilite", "PIDILITIND"),
  ("pidilite industries", "PIDILITIND"),
  ("havells", "HAVELLS"),
  ("havells india", "HAVELLS"),
  ("dabur", "DABUR"),
  ("dabur india", "DABUR"),
  ("marico", "MARICO"),
  ("godrej consumer", "GODREJCP"),
  ("godrej", "GODREJCP"),
  ("berger paints", "BERGEPAINT"),
  ("berger", "BERGEPAINT"),
  ("siemens", "SIEMENS"),
  ("abb", "ABB"),
  ("abb india", "ABB"),
  ("page industries", "PAGEIND"),
  ("page", "PAGEIND"),
  ("avenue supermarts", "DMART"),
  ("dmart", "DMART"),
  ("srf", "SRF"),
  ("muthoot finance", "MUTHOOTFIN"),
  ("muthoot", "MUTHOOTFIN"),
  ("bajaj holdings", "BAJAJHLDNG"),
  ("icici prudential", "ICICIPRULI"),
  ("icici pru", "ICICIPRULI"),
  ("bandhan bank", "BANDHANBNK"),
  ("bandhan", "BANDHANBNK"),
  ("idfc first", "IDFCFIRSTB"),
  ("idfc first bank", "IDFCFIRSTB"),
  ("yes bank", "YESBANK"),
  ("federal bank", "FEDERALBNK"),
  ("iex", "IEX"),
  ("indian energy exchange", "IEX"),
  ("cdsl", "CDSL"),
  ("hal", "HAL"),
  ("hindustan aeronautics", "HAL"),
  ("bhel", "BHEL"),
  ("bharat heavy", "BHEL"),
  ("sail", "SAIL"),
  ("steel authority", "SAIL"),
  ("indian oil", "IOC"),
  ("ioc", "IOC"),
  ("gail", "GAIL"),
  ("gail india", "GAIL"),
  ("gabriel", "GABRIEL"),
  ("gabriel india", "GABRIEL"),
  ("lupin", "LUPIN"),
  ("biocon", "BIOCON"),
  ("torrent pharma", "TORNTPHARM"),
  ("torrent", "TORNTPHARM"),
  ("aurobindo", "AUROPHARMA"),
  ("aurobindo pharma", "AUROPHARMA"),
  ("colgate", "COLPAL"),
  ("colgate palmolive", "COLPAL"),
  ("indigo", "INDIGO"),
  ("interglobe", "INDIGO"),
  ("interglobe aviation", "INDIGO"),
  ("spicejet", "SPICEJET")]

/-- The `STOPWORDS` set: words ignored when extracting symbols. -/
def STOPWORDS : List String := [
  "a", "an", "the", "all", "any", "each", "every", "few", "more", "most",
  "no", "other", "some", "such", "this", "that", "these", "those",
  "am", "are", "be", "been", "being", "can", "could", "dare", "did",
  "do", "does", "had", "has", "have", "may", "might", "must", "need",
  "ought", "shall", "should", "used", "was", "were", "will", "would",
  "about", "above", "after", "at", "beneath", "by", "for", "from", "in",
  "into", "of", "on", "over", "regarding", "to", "under", "up", "with",
  "and", "but", "either", "neither", "nor", "or", "so", "yet",
  "also", "how", "just", "now", "only", "same", "than", "too", "very",
  "when", "where", "why",
  "he", "her", "hers", "herself", "him", "himself", "his", "i", "it",
  "its", "itself", "me", "my", "myself", "our", "ours", "ourselves",
  "she", "their", "theirs", "themselves", "them", "they", "us", "we",
  "you", "your", "yours", "yourself", "yourselves",
  "what", "which", "who", "whom",
  "ask", "call", "come", "feel", "find", "get", "give", "go", "know",
  "leave", "look", "make", "seem", "see", "show", "take", "tell",
  "think", "try", "use", "want", "work",
  "bad", "good",
  "analysis", "analyze", "fundamental", "fundamentals",
  "growth", "hold", "invest", "investing", "investment", "market",
  "opinion", "portfolio", "price", "recommend", "recommendation",
  "research", "sell", "share", "shares", "stock", "stocks", "suggest",
  "thoughts", "value", "view",
  "event", "events", "announcement", "announcements", "corporate",
  "action", "actions", "meeting", "meetings", "dividend", "dividends",
  "merger", "mergers", "acquisition", "acquisitions", "earning",
  "here", "there", "today", "tomorrow", "yesterday",
  "bse", "exchange", "nifty", "nse", "sensex",
  "help", "please", "thank", "thanks"]

/-- The `_COMMON_WORDS` deny-list used by strategy 4. -/
def commonWords : List String := [
  "after", "again", "against", "because", "before", "being", "between",
  "during", "each", "further", "having", "once", "only", "other",
  "over", "same", "should", "such", "through", "under", "until",
  "very", "while", "company", "companies", "business", "industry",
  "sector", "earnings", "profit", "loss", "revenue", "quarter",
  "year", "month", "week", "day", "time", "money", "percent",
  "percentage", "increase", "decrease", "rise", "fall", "drop",
  "gain", "down", "high", "low", "best", "worst", "top", "bottom",
  "first", "last", "next", "previous", "current", "recent", "latest",
  "new", "old", "big", "small", "large", "long", "short", "term"]

/-- Python `dict(base)` followed by `.update(overrides)`: existing keys
keep their position but take the override value; new keys are appended
in override order. -/
def dictUpdate (base overrides : List (String × String)) : List (String × String) :=
  (base.map (fun p =>
    match overrides.lookup p.1 with
    | some v => (p.1, v)
    | none => p))
  ++ overrides.filter (fun p => (base.lookup p.1).isNone)

/-- `_get_name_to_symbol`: the NSE-derived name map with the manual
aliases merged on top (manual overrides win). -/
def getNameToSymbol (nseNames : List (String × String)) : List (String × String) :=
  dictUpdate nseNames manualAliases

/-- The key-length ordering used by strategy 1: `sorted(keys, key=len,
reverse=True)` — longer alias keys come first. -/
def aliasLonger (p q : String × String) : Prop := q.1.length ≤ p.1.length

instance : DecidableRel aliasLonger := fun p q => Nat.decLe q.1.length p.1.length

instance : IsTotal (String × String) aliasLonger :=
  ⟨fun a b => (Nat.le_total a.1.length b.1.length).symm⟩

instance : IsTrans (String × String) aliasLonger :=
  ⟨fun _ _ _ hab hbc => le_trans hbc hab⟩

/-- Embedding of `extract_symbol`.  The externally loaded NSE data is a
parameter: `nseNames` is the dynamic company-name → symbol map and
`nseSymbols` the set of valid NSE tickers.  Strategies in order:
0 exchange-qualified token, 1 longest known-name substring, 2 exact
valid-ticker token, 3 any non-stopword uppercase token, 4 loose
non-stopword token. -/
def extractSymbol (nseNames : List (String × String)) (nseSymbols : List String)
    (query : String) : Option String :=
  if query = "" then none
  else
    match exchangeSearch query with
    | some t => some (strUpper t)
    | none =>
      let queryLower := strLower query
      let nameMap := getNameToSymbol nseNames
      match (List.insertionSort aliasLonger nameMap).find?
          (fun p => strContains queryLower p.1) with
      | some p => some p.2
      | none =>
        let wordsUpper := findTokens Char.isUpper isTickerChar query
        match wordsUpper.find? (fun w =>
            nseSymbols.contains w && !STOPWORDS.contains (strLower w)) with
        | some w => some w
        | none =>
          match wordsUpper.find? (fun w => !STOPWORDS.contains (strLower w)) with
          | some w => some w
          | none =>
            let words := findTokens Char.isAlpha isAlnumAmpDash query
            match words.find? (fun w =>
                !STOPWORDS.contains (strLower w) && decide (2 ≤ w.length)
                  && ((w.data.headD ' ').isUpper || !commonWords.contains (strLower w))) with
            | some w => some (strUpper w)
            | none => none

/-- Embedding of `normalize_symbol`: strip whitespace, uppercase, remove
one leading `NSE:`/`BSE:` and one trailing `.NS`/`.BO`. -/
def normalizeSymbol (symbol : String) : String :=
  if symbol = "" then ""
  else
    let s := strUpper (strTrim symbol)
    let s := if "NSE:".data.isPrefixOf s.data || "BSE:".data.isPrefixOf s.data
      then String.mk (s.data.drop 4) else s
    let s := if ".NS".data.isSuffixOf s.data || ".BO".data.isSuffixOf s.data
      then String.mk (s.data.take (s.data.length - 3)) else s
    s

/-- Helper: `find?` on a list sorted by descending key length returns an
element of maximal key length among those satisfying the predicate. -/
theorem find?_sorted_aliasLonger {l : List (String × String)} {pred : String × String → Bool}
    {p : String × String} (hsort : List.Sorted aliasLonger l) (hfind : l.find? pred = some p) :
    ∀ q ∈ l, pred q = true → q.1.length ≤ p.1.length := by
  induction l with
  | nil => simp at hfind
  | cons a tl ih =>
    by_cases hpa : pred a = true
    · rw [List.find?_cons_of_pos _ hpa] at hfind
      obtain rfl : a = p := by simpa using hfind
      intro q hq hpq
      rcases List.mem_cons.mp hq with rfl | hq
      · exact le_refl _
      · exact (List.sorted_cons.mp hsort).1 q hq
    · rw [List.find?_cons_of_neg _ (by simpa using hpa)] at hfind
      intro q hq hpq
      rcases List.mem_cons.mp hq with rfl | hq
      · exact absurd hpq hpa
      · exact ih (List.sorted_cons.mp hsort).2 hfind q hq hpq

/-- Helper: only the empty string is a substring of the empty string. -/
theorem strContains_empty {k : String} (h : strContains "" k = true) : k = "" := by
  have hp : k.data.isPrefixOf ([] : List Char) = true := by
    simpa [strContains] using h
  have : k.data = [] := by
    cases hk : k.data with
    | nil => rfl
    | cons c cs => rw [hk] at hp; simp [List.isPrefixOf] at hp
  cases k
  simp_all

/-- Helper: when strategy 0 fails and the strategy-1 scan over the
length-sorted alias keys finds a pair, `extract_symbol` returns its
ticker. -/
theorem extractSymbol_eq_of_strategy1 (nseNames : List (String × String))
    (nseSymbols : List String) (query : String) (p : String × String)
    (hq : ¬ query = "") (hexch : exchangeSearch query = none)
    (hfind : (List.insertionSort aliasLonger (getNameToSymbol nseNames)).find?
        (fun r => strContains (strLower query) r.1) = some p) :
    extractSymbol nseNames nseSymbols query = some p.2 := by
  unfold extractSymbol
  rw [if_neg hq, hexch]
  simp only [hfind]

/-- C5: whenever a query (with no exchange-qualified token) contains
more than one alias key of the merged name-to-symbol map as a substring
of its lowercased text, `extract_symbol` returns the ticker mapped from
a longest matching alias key. -/
theorem extractSymbol_longest_alias (nseNames : List (String × String))
    (nseSymbols : List String) (query : String)
    (hnodup : ((getNameToSymbol nseNames).map Prod.fst).Nodup)
    (hexch : exchangeSearch query = none)
    (hmulti : 1 < ((getNameToSymbol nseNames).filter
        (fun p => strContains (strLower query) p.1)).length) :
    ∃ p ∈ getNameToSymbol nseNames,
      strContains (strLower query) p.1 = true
      ∧ (∀ q ∈ getNameToSymbol nseNames,
          strContains (strLower query) q.1 = true → q.1.length ≤ p.1.length)
      ∧ extractSymbol nseNames nseSymbols query = some p.2 := by
  have hq : ¬ query = "" := by
    intro e
    subst e
    rcases hl : (getNameToSymbol nseNames).filter
        (fun p => strContains (strLower "") p.1) with _ | ⟨x, _ | ⟨y, rest⟩⟩
    · rw [hl] at hmulti; simp at hmulti
    · rw [hl] at hmulti; simp at hmulti
    · have hxf : x ∈ (getNameToSymbol nseNames).filter
          (fun p => strContains (strLower "") p.1) := by
        rw [hl]; exact List.mem_cons_self _ _
      have hyf : y ∈ (getNameToSymbol nseNames).filter
          (fun p => strContains (strLower "") p.1) := by
        rw [hl]; exact List.mem_cons_of_mem _ (List.mem_cons_self _ _)
      have hx : x.1 = "" := strContains_empty (List.mem_filter.mp hxf).2
      have hy : y.1 = "" := strContains_empty (List.mem_filter.mp hyf).2
      have hsub : List.Sublist (((getNameToSymbol nseNames).filter
          (fun p => strContains (strLower "") p.1)).map Prod.fst)
          ((getNameToSymbol nseNames).map Prod.fst) :=
        (List.filter_sublist _).map Prod.fst
      have hnd := hnodup.sublist hsub
      rw [hl] at hnd
      simp [hx, hy] at hnd
  have hne : ∃ x ∈ List.insertionSort aliasLonger (getNameToSymbol nseNames),
      strContains (strLower query) x.1 = true := by
    rcases hl : (getNameToSymbol nseNames).filter
        (fun p => strContains (strLower query) p.1) with _ | ⟨x, rest⟩
    · rw [hl] at hmulti; simp at hmulti
    · have hxf : x ∈ (getNameToSymbol nseNames).filter
          (fun p => strContains (strLower query) p.1) := by
        rw [hl]; exact List.mem_cons_self _ _
      exact ⟨x, (List.perm_insertionSort aliasLonger _).mem_iff.mpr
        (List.mem_filter.mp hxf).1, (List.mem_filter.mp hxf).2⟩
  obtain ⟨p, hfind⟩ := Option.isSome_iff_exists.mp (List.find?_isSome.mpr hne)
  have hpmem : p ∈ getNameToSymbol nseNames :=
    (List.perm_insertionSort aliasLonger _).mem_iff.mp (List.mem_of_find?_eq_some hfind)
  have hppred : strContains (strLower query) p.1 = true := by
    simpa using List.find?_some hfind
  refine ⟨p, hpmem, hppred, ?_, ?_⟩
  · intro q hqmem hqpred
    exact find?_sorted_aliasLonger (List.sorted_insertionSort aliasLonger _) hfind q
      ((List.perm_insertionSort aliasLonger _).mem_iff.mpr hqmem) hqpred
  · exact extractSymbol_eq_of_strategy1 nseNames nseSymbols query p hq hexch hfind

/-- C5 witness: "tata consultancy services results" matches both
"tata consultancy" and "tata consultancy services" (among others), and
`extract_symbol` resolves it through a longest matching key. -/
theorem extractSymbol_longest_alias_witness :
    ∃ p ∈ getNameToSymbol [],
      strContains (strLower "tata consultancy services results") p.1 = true
      ∧ (∀ q ∈ getNameToSymbol [],
          strContains (strLower "tata consultancy services results") q.1 = true
            → q.1.length ≤ p.1.length)
      ∧ extractSymbol [] [] "tata consultancy services results" = some p.2 :=
  extractSymbol_longest_alias [] [] "tata consultancy services results"
    (by set_option maxRecDepth 40000 in decide) (by decide)
    (by set_option maxRecDepth 40000 in decide)

/-- C6: whenever the strategy-0 search finds an exchange-qualified
`NSE:`/`BSE:` ticker token in the query, `extract_symbol` returns that
ticker uppercased — for every alias map and valid-symbol set, i.e.,
regardless of any other content of the query. -/
theorem extractSymbol_exchange_priority (nseNames : List (String × String))
    (nseSymbols : List String) (query t : String)
    (h : exchangeSearch query = some t) :
    extractSymbol nseNames nseSymbols query = some (strUpper t) := by
  have hq : ¬ query = "" := by
    intro e
    subst e
    rw [show exchangeSearch "" = none from rfl] at h
    cases h
  unfold extractSymbol
  rw [if_neg hq, h]

/-- C6 witness: "buy NSE:INFY or reliance" contains both an
exchange-qualified token and the known alias "reliance"; the
exchange-qualified ticker wins. -/
theorem extractSymbol_exchange_priority_witness :
    extractSymbol [] [] "buy NSE:INFY or reliance" = some (strUpper "INFY") :=
  extractSymbol_exchange_priority [] [] "buy NSE:INFY or reliance" "INFY" (by decide)

/-- C9: `normalize_symbol` sends both "NSE:RELIANCE.NS" and "reliance"
to "RELIANCE" — it strips an exchange prefix and a `.NS`/`.BO` suffix
and uppercases, as a pure string transform. -/
theorem normalizeSymbol_roundtrip :
    normalizeSymbol "NSE:RELIANCE.NS" = "RELIANCE"
    ∧ normalizeSymbol "reliance" = "RELIANCE"
    ∧ normalizeSymbol "NSE:RELIANCE.NS" = normalizeSymbol "reliance" := by
  refine ⟨?_, ?_, ?_⟩ <;> rfl

/-! ### `src/agents/orchestrator.py` — intent classifier -/

/-- Regular-expression AST covering the constructs used by the
classifier patterns: character classes, concatenation, alternation and
Kleene star (`emp` matches nothing, `eps` the empty string). -/
inductive Rx where
  | emp : Rx
  | eps : Rx
  | cls : (Char → Bool) → Rx
  | seq : Rx → Rx → Rx
  | alt : Rx → Rx → Rx
  | star : Rx → Rx

/-- Does the regex accept the empty string? -/
def Rx.nullable : Rx → Bool
  | .emp => false
  | .eps => true
  | .cls _ => false
  | .seq a b => a.nullable && b.nullable
  | .alt a b => a.nullable || b.nullable
  | .star _ => true

/-- Smart sequencing (keeps derivatives small). -/
def Rx.seqS : Rx → Rx → Rx
  | .emp, _ => .emp
  | _, .emp => .emp
  | .eps, b => b
  | a, .eps => a
  | a, b => .seq a b

/-- Smart alternation (keeps derivatives small). -/
def Rx.altS : Rx → Rx → Rx
  | .emp, b => b
  | a, .emp => a
  | a, b => .alt a b

/-- Brzozowski derivative of a regex by one character. -/
def Rx.deriv : Rx → Char → Rx
  | .emp, _ => .emp
  | .eps, _ => .emp
  | .cls p, c => if p c then .eps else .emp
  | .seq a b, c =>
    if a.nullable then Rx.altS (Rx.seqS (a.deriv c) b) (b.deriv c)
    else Rx.seqS (a.deriv c) b
  | .alt a b, c => Rx.altS (a.deriv c) (b.deriv c)
  | .star a, c => Rx.seqS (a.deriv c) (.star a)

/-- Does some prefix of `l` match `r`? -/
def Rx.matchesPrefix : Rx → List Char → Bool
  | r, [] => r.nullable
  | r, c :: rest => r.nullable || (r.deriv c).matchesPrefix rest

/-- `re.search`: does the regex match starting at some position? -/
def Rx.search : Rx → List Char → Bool
  | r, [] => r.nullable
  | r, c :: rest => r.matchesPrefix (c :: rest) || r.search rest

/-- Literal string. -/
def Rx.lit (s : String) : Rx :=
  s.data.foldr (fun c r => Rx.seq (Rx.cls (fun x => x == c)) r) Rx.eps

/-- `(…)?`. -/
def Rx.opt (a : Rx) : Rx := Rx.alt Rx.eps a

/-- `(…)+`. -/
def Rx.plus (a : Rx) : Rx := Rx.seq a (Rx.star a)

/-- Concatenation of a pattern list. -/
def Rx.cat (l : List Rx) : Rx := l.foldr Rx.seq Rx.eps

/-- `(w1|w2|…)` over literal words. -/
def Rx.litAlt (ws : List String) : Rx := ws.foldr (fun w r => Rx.alt (Rx.lit w) r) Rx.emp

/-- `\w*`. -/
def wStar : Rx := Rx.star (Rx.cls isWordChar)

/-- `\w+`. -/
def wPlus : Rx := Rx.plus (Rx.cls isWordChar)

/-- `\s+`. -/
def sPlus : Rx := Rx.plus (Rx.cls (fun c => c.isWhitespace))

/-- `\s*`. -/
def sStar : Rx := Rx.star (Rx.cls (fun c => c.isWhitespace))

/-- `.*` (any char except newline). -/
def dotStar : Rx := Rx.star (Rx.cls (fun c => !(c == '\n')))

/-- The portfolio-analysis pattern family, in source order. -/
def portfolioPatterns : List Rx := [
  Rx.cat [Rx.lit "analyz", wStar, sPlus, Rx.opt (Rx.cat [Rx.lit "my", sPlus]),
    Rx.lit "portfolio"],
  Rx.cat [Rx.litAlt ["worst", "best", "top", "losing", "winning"], sPlus,
    Rx.opt (Rx.cat [Rx.lit "performing", sPlus]), Rx.litAlt ["stock", "holding"]],
  Rx.cat [Rx.lit "which", sPlus, Rx.litAlt ["stock", "holding"], dotStar,
    Rx.litAlt ["worst", "best", "losing", "winning"]],
  Rx.cat [Rx.lit "portfolio", sPlus, Rx.litAlt ["analysis", "insight", "summary"]],
  Rx.cat [Rx.opt (Rx.cat [Rx.lit "deep", sPlus]), Rx.lit "dive", sPlus,
    Rx.opt (Rx.cat [Rx.lit "into", sPlus]), Rx.opt (Rx.cat [Rx.lit "my", sPlus]),
    Rx.lit "portfolio"],
  Rx.cat [Rx.litAlt ["change", "performance", "return", "pnl", "p&l", "profit", "loss"],
    sPlus, Rx.litAlt ["in", "of", "for"], sPlus, Rx.opt (Rx.cat [Rx.lit "my", sPlus]),
    Rx.lit "portfolio"],
  Rx.cat [Rx.opt (Rx.cat [Rx.lit "my", sPlus]), Rx.lit "portfolio", dotStar,
    Rx.litAlt ["change", "performance", "yesterday", "today", "week", "month"]],
  Rx.cat [Rx.lit "how", sPlus, Rx.litAlt ["did", "is", "has", "was"], sPlus,
    Rx.opt (Rx.cat [Rx.lit "my", sPlus]), Rx.lit "portfolio"],
  Rx.cat [Rx.litAlt ["what", "show"], dotStar, Rx.opt (Rx.cat [Rx.lit "my", sPlus]),
    Rx.lit "portfolio", dotStar, Rx.litAlt ["change", "return", "pnl", "performance"]]]

/-- The market-context pattern family, in source order. -/
def contextPatterns : List Rx := [
  Rx.cat [Rx.lit "why", sPlus, Rx.litAlt ["is", "are", "did"], sPlus,
    Rx.opt (Rx.cat [Rx.lit "my", sPlus]), Rx.litAlt ["portfolio", "stock", "market"],
    dotStar, Rx.litAlt ["down", "up", "fall", "drop", "rise", "crash"]],
  Rx.cat [Rx.lit "what", sPlus, Rx.litAlt ["happened", "caused"], dotStar,
    Rx.litAlt ["market", "portfolio", "today"]],
  Rx.cat [Rx.lit "market", sPlus, Rx.litAlt ["context", "overview", "summary", "update"]],
  Rx.cat [Rx.lit "explain", sPlus, Rx.litAlt ["today", "the"], sStar,
    Rx.litAlt ["market", "movement", "change"]],
  Rx.cat [Rx.litAlt ["portfolio", "market"], sPlus,
    Rx.litAlt ["drop", "crash", "rally", "surge"]]]

/-- The watchlist pattern family, in source order. -/
def watchlistPatterns : List Rx := [
  Rx.cat [Rx.lit "watchlist", sStar, Rx.litAlt ["suggestion", "recommend", "idea", "stock"]],
  Rx.cat [Rx.litAlt ["suggest", "recommend"], sPlus, Rx.litAlt ["stock", "share"],
    Rx.opt (Rx.lit "s"), sStar, Rx.opt (Rx.cat [Rx.lit "to", sPlus]),
    Rx.litAlt ["watch", "buy", "add"]],
  Rx.cat [Rx.lit "what", sPlus, Rx.litAlt ["should", "can"], sPlus, Rx.lit "i", sPlus,
    Rx.litAlt ["buy", "watch", "add"]],
  Rx.cat [Rx.litAlt ["stock", "share"], Rx.opt (Rx.lit "s"), sPlus, Rx.lit "to", sPlus,
    Rx.litAlt ["watch", "buy", "add"]],
  Rx.cat [Rx.litAlt ["build", "create", "make"], sPlus, Rx.opt (Rx.cat [Rx.lit "my", sPlus]),
    Rx.lit "watchlist"],
  Rx.cat [Rx.litAlt ["future", "next"], sPlus, Rx.litAlt ["buy", "investment", "stock"]],
  Rx.cat [Rx.lit "what", sPlus, Rx.lit "to", sPlus, Rx.litAlt ["buy", "invest", "watch"]]]

/-- The fundamental-analysis pattern family, in source order. -/
def fundamentalPatterns : List Rx := [
  Rx.cat [Rx.litAlt ["is", "are"], sPlus, wPlus, sPlus, Rx.opt (Rx.cat [Rx.lit "a", sPlus]),
    Rx.litAlt ["good", "bad"], sPlus, Rx.litAlt ["buy", "stock", "investment"]],
  Rx.cat [Rx.lit "fundamental", Rx.opt (Rx.lit "s"), sPlus,
    Rx.litAlt ["analysis", "of", "for"], sPlus, wPlus],
  Rx.cat [wPlus, sPlus, Rx.lit "fundamental", Rx.opt (Rx.lit "s")],
  Rx.cat [Rx.alt (Rx.cat [Rx.lit "should", sPlus, Rx.lit "i"])
      (Rx.cat [Rx.lit "can", sPlus, Rx.lit "i"]), sPlus,
    Rx.litAlt ["buy", "invest", "hold", "sell"], sPlus, wPlus],
  Rx.cat [Rx.litAlt ["valuation", "value"], sPlus, Rx.litAlt ["of", "for"], sPlus, wPlus],
  Rx.cat [Rx.litAlt ["pe", "pb", "roe", "roce", "debt"], sPlus,
    Rx.opt (Rx.cat [Rx.lit "ratio", sPlus]), Rx.litAlt ["of", "for"], sPlus, wPlus],
  Rx.cat [Rx.litAlt ["analyze", "check"], sPlus, Rx.opt (Rx.cat [Rx.lit "the", sPlus]),
    Rx.litAlt ["financials", "fundamentals"], sPlus, Rx.litAlt ["of", "for"], sPlus, wPlus],
  Rx.cat [Rx.litAlt ["good", "bad"], sPlus, Rx.litAlt ["stock", "investment", "buy"],
    sStar, Rx.lit "?"],
  Rx.cat [Rx.lit "worth", sPlus, Rx.litAlt ["buying", "investing"]]]

/-- The stock-research pattern family, in source order. -/
def researchPatterns : List Rx := [
  Rx.cat [Rx.litAlt ["tell", "inform"], sPlus, Rx.opt (Rx.cat [Rx.lit "me", sPlus]),
    Rx.litAlt ["about", "regarding"], sPlus, wPlus],
  Rx.cat [Rx.lit "research", sPlus, wPlus, Rx.opt (Rx.cat [sPlus, Rx.lit "stock"])],
  Rx.cat [Rx.litAlt ["what", "how"], sPlus, Rx.litAlt ["is", "about"], sPlus, wPlus,
    sStar, Rx.opt (Rx.litAlt ["stock", "share", "doing"])],
  Rx.cat [Rx.litAlt ["analyze", "analysis"], sPlus, Rx.opt (Rx.cat [Rx.lit "of", sPlus]),
    wPlus, sStar, Rx.opt (Rx.lit "stock")],
  Rx.cat [wPlus, sPlus, Rx.litAlt ["stock", "share"], sPlus,
    Rx.litAlt ["research", "analysis", "info", "details"]],
  Rx.cat [Rx.litAlt ["news", "update"], sPlus, Rx.litAlt ["on", "about", "for"], sPlus, wPlus]]

/-- `re.search` over a string. -/
def rxSearchStr (r : Rx) (s : String) : Bool := Rx.search r s.data

/-- Embedding of `AgentOrchestrator.should_use_agent`: the five ordered
pattern families over the lowercased query; the first family with any
matching pattern wins. -/
def shouldUseAgent (query : String) : Bool × Option String :=
  let ql := strLower query
  if portfolioPatterns.any (fun r => rxSearchStr r ql) then (true, some "portfolio_analysis")
  else if contextPatterns.any (fun r => rxSearchStr r ql) then (true, some "market_context")
  else if watchlistPatterns.any (fun r => rxSearchStr r ql) then (true, some "watchlist")
  else if fundamentalPatterns.any (fun r => rxSearchStr r ql) then
    (true, some "fundamental_analysis")
  else if researchPatterns.any (fun r => rxSearchStr r ql) then (true, some "stock_research")
  else (false, none)

/-- C7: the classifier routes "Analyze my portfolio" to
portfolio_analysis, "Is Reliance a good buy?" to fundamental_analysis
(the fundamental family is checked before the research family, so it
does not resolve to stock_research), and "Hello" to no workflow. -/
theorem shouldUseAgent_examples :
    shouldUseAgent "Analyze my portfolio" = (true, some "portfolio_analysis")
    ∧ shouldUseAgent "Is Reliance a good buy?" = (true, some "fundamental_analysis")
    ∧ shouldUseAgent "Hello" = (false, none) := by
  refine ⟨?_, ?_, ?_⟩ <;> set_option maxRecDepth 40000 in decide

/-! ### `src/agents/tools/portfolio_tools.py` -/

/-- A holding record from the broker; the fields read via `h.get(…, 0)`
in the tools (missing keys default to 0 / ""). -/
structure Holding where
  tradingsymbol : String := ""
  quantity : ℚ := 0
  average_price : ℚ := 0
  last_price : ℚ := 0
  pnl : ℚ := 0
  day_change_percentage : ℚ := 0

/-- One analyzed entry produced by `analyze_performers`. -/
structure AnalyzedStock where
  symbol : String
  quantity : ℚ
  average_price : ℚ
  last_price : ℚ
  pnl : ℚ
  return_pct : ℚ
  day_change_pct : ℚ

/-- The per-holding record built inside `analyze_performers`, including
the guarded return percentage. -/
def analyzeHolding (h : Holding) : AnalyzedStock :=
  { symbol := h.tradingsymbol
    quantity := h.quantity
    average_price := h.average_price
    last_price := h.last_price
    pnl := h.pnl
    return_pct :=
      if 0 < h.average_price then (h.last_price - h.average_price) / h.average_price * 100
      else 0
    day_change_pct := h.day_change_percentage }

/-- Ascending comparison on the computed return percentage (the `worst`
sort key). -/
def returnPctLe (a b : AnalyzedStock) : Prop := a.return_pct ≤ b.return_pct

instance : DecidableRel returnPctLe :=
  fun a b => inferInstanceAs (Decidable (a.return_pct ≤ b.return_pct))

instance : IsTotal AnalyzedStock returnPctLe :=
  ⟨fun a b => le_total a.return_pct b.return_pct⟩

instance : IsTrans AnalyzedStock returnPctLe := ⟨fun _ _ _ => le_trans⟩

/-- Descending comparison (`reverse=True`, the `best` sort). -/
def returnPctGe (a b : AnalyzedStock) : Prop := b.return_pct ≤ a.return_pct

instance : DecidableRel returnPctGe :=
  fun a b => inferInstanceAs (Decidable (b.return_pct ≤ a.return_pct))

/-- Embedding of `analyze_performers`: build the analyzed records, sort
ascending for "worst", descending for "best", keep original order
otherwise, then truncate to `top_n`.  (Python's stable `list.sort` is
modelled by the stable `insertionSort`.) -/
def analyzePerformers (holdings : List Holding) (analysisType : String) (topN : Nat) :
    List AnalyzedStock :=
  if holdings.isEmpty then []
  else
    let analyzed := holdings.map analyzeHolding
    let analyzed :=
      if analysisType = "worst" then List.insertionSort returnPctLe analyzed
      else if analysisType = "best" then List.insertionSort returnPctGe analyzed
      else analyzed
    analyzed.take topN

/-! ### `src/agents/workflows/portfolio_analysis.py` -/

/-- Python truthiness of the `error` state field (`if state.get("error"):`
— `None` and `""` are falsy). -/
def isTruthyError : Option String → Bool
  | none => false
  | some s => !(s = "")

/-- State schema of the portfolio-analysis workflow.  `steps_completed`
is the append-only accumulator; all other fields replace on write.  News
articles carry no structure the workflow inspects, so they are opaque
strings. -/
structure PortfolioState where
  query : String
  analysis_type : String
  holdings : List Holding
  total_value : ℚ
  total_pnl : ℚ
  target_stocks : List AnalyzedStock
  news_context : List String
  insights : String
  error : Option String
  steps_completed : List String

/-- Outcome of the external broker call `client.get_holdings()`. -/
inductive HoldingsOutcome where
  | ok : List Holding → HoldingsOutcome
  | authError : HoldingsOutcome
  | otherError : String → HoldingsOutcome

/-- Result shape of `fetch_holdings` (portfolio_tools.py). -/
structure FetchHoldingsResult where
  holdings : List Holding
  total_value : ℚ
  total_pnl : ℚ
  error : Option String

/-- Embedding of `fetch_holdings`: totals accumulated over holdings;
`AuthenticationError` and generic exceptions map to the error field. -/
def fetchHoldings : HoldingsOutcome → FetchHoldingsResult
  | .ok holdings =>
    if holdings.isEmpty then
      { holdings := []
        total_value := 0
        total_pnl := 0
        error := none }
    else
      { holdings := holdings
        total_value := (holdings.map (fun h => h.quantity * h.last_price)).sum
        total_pnl := (holdings.map (fun h => h.pnl)).sum
        error := none }
  | .authError =>
    { holdings := []
      total_value := 0
      total_pnl := 0
      error := some ("Not logged in. Please run " ++ squote ++ "login" ++ squote ++ " first.") }
  | .otherError msg =>
    { holdings := []
      total_value := 0
      total_pnl := 0
      error := some msg }

/-- Node `fetch_portfolio_node` (its broker outcome passed in). -/
def fetchPortfolioNode (outcome : HoldingsOutcome) (state : PortfolioState) : PortfolioState :=
  let result := fetchHoldings outcome
  if isTruthyError result.error then
    { state with
      error := result.error
      steps_completed := state.steps_completed ++ ["fetch_portfolio"] }
  else
    { state with
      holdings := result.holdings
      total_value := result.total_value
      total_pnl := result.total_pnl
      steps_completed := state.steps_completed ++ ["fetch_portfolio"] }

/-- Node `analyze_performers_node`. -/
def analyzePerformersNode (state : PortfolioState) : PortfolioState :=
  if state.holdings.isEmpty then
    { state with
      target_stocks := []
      steps_completed := state.steps_completed ++ ["analyze_performers"] }
  else
    { state with
      target_stocks := analyzePerformers state.holdings state.analysis_type 3
      steps_completed := state.steps_completed ++ ["analyze_performers"] }

/-- Node `fetch_news_node` (the news search result passed in). -/
def portfolioFetchNewsNode (news : List String) (state : PortfolioState) : PortfolioState :=
  if state.target_stocks.isEmpty then
    { state with
      news_context := []
      steps_completed := state.steps_completed ++ ["fetch_news"] }
  else
    { state with
      news_context := news
      steps_completed := state.steps_completed ++ ["fetch_news"] }

/-- Outcome of the external LLM completion call. -/
inductive LlmOutcome where
  | ok : String → LlmOutcome
  | exn : String → LlmOutcome

/-- Node `generate_insights_node`: echoes the error when set, reports an
empty portfolio, otherwise returns the LLM text (or its failure text). -/
def generateInsightsNode (llm : LlmOutcome) (state : PortfolioState) : PortfolioState :=
  if isTruthyError state.error then
    { state with
      insights := "Unable to analyze portfolio: " ++ state.error.getD ""
      steps_completed := state.steps_completed ++ ["generate_insights"] }
  else if state.holdings.isEmpty then
    { state with
      insights := "No holdings found in your portfolio."
      steps_completed := state.steps_completed ++ ["generate_insights"] }
  else
    let insights :=
      match llm with
      | .ok s => if s = "" then "Error: Empty response from AI model" else s
      | .exn e => "Error generating insights: " ++ e
    { state with
      insights := insights
      steps_completed := state.steps_completed ++ ["generate_insights"] }

/-- `should_continue` of the portfolio workflow. -/
def portfolioShouldContinue (state : PortfolioState) : String :=
  if isTruthyError state.error then "generate_insights" else "continue"

/-- The compiled portfolio-analysis graph: entry `fetch_portfolio`; a
conditional edge jumps straight to `generate_insights` on error,
otherwise the chain `analyze_performers → fetch_news →
generate_insights` runs. -/
def runPortfolioGraph (outcome : HoldingsOutcome) (news : List String) (llm : LlmOutcome)
    (init : PortfolioState) : PortfolioState :=
  let s1 := fetchPortfolioNode outcome init
  if portfolioShouldContinue s1 = "generate_insights" then generateInsightsNode llm s1
  else generateInsightsNode llm (portfolioFetchNewsNode news (analyzePerformersNode s1))

/-- The initial state built by `PortfolioAnalysisAgent.analyze`. -/
def initialPortfolioState (query analysisType : String) : PortfolioState :=
  { query := query
    analysis_type := analysisType
    holdings := []
    total_value := 0
    total_pnl := 0
    target_stocks := []
    news_context := []
    insights := ""
    error := none
    steps_completed := [] }

/-- `PortfolioAnalysisAgent.detect_analysis_type`: "worst" wins on a
worst-keyword, then "best" on a best-keyword, default "worst". -/
def detectAnalysisType (query : String) : String :=
  let queryLower := strLower query
  if ["worst", "losing", "loss", "down", "decline", "poor"].any
      (fun w => strContains queryLower w) then "worst"
  else if ["best", "top", "winning", "gain", "up", "good"].any
      (fun w => strContains queryLower w) then "best"
  else "worst"

/-! ### `src/agents/workflows/fundamental_analysis.py` — workflow -/

/-- State schema of the fundamental-analysis workflow. -/
structure FundamentalAnalysisState where
  query : String
  symbol : String
  fundamentals : Option FundamentalData
  score : Option FundamentalScore
  in_portfolio : Bool
  holding_qty : ℚ
  holding_avg_price : ℚ
  holding_pnl : ℚ
  holding_value : ℚ
  news_articles : List String
  response : String
  error : Option String
  steps_completed : List String

/-- Node `extract_symbol_node`: resolve the symbol from the query when
none was given; error out when nothing resolves. -/
def extractSymbolNode (nseNames : List (String × String)) (nseSymbols : List String)
    (state : FundamentalAnalysisState) : FundamentalAnalysisState :=
  let symbol :=
    if state.symbol = "" then (extractSymbol nseNames nseSymbols state.query).getD ""
    else state.symbol
  if symbol = "" then
    { state with
      error := some "Could not identify stock symbol from query. Please specify a stock symbol."
      steps_completed := state.steps_completed ++ ["extract_symbol"] }
  else
    { state with
      symbol := strUpper symbol
      steps_completed := state.steps_completed ++ ["extract_symbol"] }

/-- Node `fetch_fundamentals_node` (the scraped data passed in): no-op
when the symbol is missing or an error is set. -/
def fetchFundamentalsNode (fund : FundamentalData) (state : FundamentalAnalysisState) :
    FundamentalAnalysisState :=
  if state.symbol = "" || isTruthyError state.error then
    { state with steps_completed := state.steps_completed ++ ["fetch_fundamentals"] }
  else
    { state with
      fundamentals := some fund
      score := some (if isTruthyError fund.error then {} else analyzeFundamentals fund)
      steps_completed := state.steps_completed ++ ["fetch_fundamentals"] }

/-- Outcome of the holdings lookup inside `check_holdings_node`. -/
inductive CheckHoldingsOutcome where
  | ok : List Holding → CheckHoldingsOutcome
  | exn : CheckHoldingsOutcome

/-- Node `check_holdings_node`: no-op on error; otherwise look the
(uppercased) symbol up among the holdings, swallowing exceptions. -/
def checkHoldingsNode (outcome : CheckHoldingsOutcome) (state : FundamentalAnalysisState) :
    FundamentalAnalysisState :=
  if isTruthyError state.error then
    { state with steps_completed := state.steps_completed ++ ["check_holdings"] }
  else
    match outcome with
    | .exn =>
      { state with
        in_portfolio := false
        steps_completed := state.steps_completed ++ ["check_holdings"] }
    | .ok holdings =>
      match holdings.find? (fun h => strUpper h.tradingsymbol == strUpper state.symbol) with
      | some h =>
        { state with
          in_portfolio := true
          holding_qty := h.quantity
          holding_avg_price := h.average_price
          holding_pnl := h.pnl
          holding_value := h.quantity * h.last_price
          steps_completed := state.steps_completed ++ ["check_holdings"] }
      | none =>
        { state with
          in_portfolio := false
          steps_completed := state.steps_completed ++ ["check_holdings"] }

/-- Node `fetch_news_node` of the fundamental workflow. -/
def fundamentalFetchNewsNode (news : List String) (state : FundamentalAnalysisState) :
    FundamentalAnalysisState :=
  if state.symbol = "" || isTruthyError state.error then
    { state with
      news_articles := []
      steps_completed := state.steps_completed ++ ["fetch_news"] }
  else
    { state with
      news_articles := news
      steps_completed := state.steps_completed ++ ["fetch_news"] }

/-- Node `generate_analysis_node`: echoes the error when set, otherwise
returns the LLM text (or its failure text). -/
def generateAnalysisNode (llm : LlmOutcome) (state : FundamentalAnalysisState) :
    FundamentalAnalysisState :=
  if isTruthyError state.error then
    { state with
      response := "## Analysis Error\n\n" ++ state.error.getD ""
      steps_completed := state.steps_completed ++ ["generate_analysis"] }
  else
    let analysis :=
      match llm with
      | .ok s => s
      | .exn e => "## Analysis Error\n\nUnable to generate analysis: " ++ e
    { state with
      response := analysis
      steps_completed := state.steps_completed ++ ["generate_analysis"] }

/-- `should_continue` of the fundamental workflow. -/
def fundamentalShouldContinue (state : FundamentalAnalysisState) : String :=
  if isTruthyError state.error then "generate_analysis" else "continue"

/-- The compiled fundamental-analysis graph: entry `extract_symbol`; a
conditional edge jumps straight to `generate_analysis` on error,
otherwise the chain `fetch_fundamentals → check_holdings → fetch_news →
generate_analysis` runs. -/
def runFundamentalGraph (nseNames : List (String × String)) (nseSymbols : List String)
    (fund : FundamentalData) (holdingsOutcome : CheckHoldingsOutcome) (news : List String)
    (llm : LlmOutcome) (init : FundamentalAnalysisState) : FundamentalAnalysisState :=
  let s1 := extractSymbolNode nseNames nseSymbols init
  if fundamentalShouldContinue s1 = "generate_analysis" then generateAnalysisNode llm s1
  else
    generateAnalysisNode llm (fundamentalFetchNewsNode news
      (checkHoldingsNode holdingsOutcome (fetchFundamentalsNode fund s1)))

/-- The initial state built by `FundamentalAnalysisAgent.analyze`. -/
def initialFundamentalState (query symbol : String) : FundamentalAnalysisState :=
  { query := query
    symbol := symbol
    fundamentals := none
    score := none
    in_portfolio := false
    holding_qty := 0
    holding_avg_price := 0
    holding_pnl := 0
    holding_value := 0
    news_articles := []
    response := ""
    error := none
    steps_completed := [] }

/-! ### `src/agents/orchestrator.py` — `process_query` -/

/-- Result shape of `run_agent`. -/
structure RunAgentResult where
  response : String
  agent_used : Option String

/-- Response envelope of `process_query`. -/
structure ProcessResult where
  response : Option String
  used_agent : Bool
  agent_type : Option String

/-- The fixed `valid_agent_types` enumeration. -/
def validAgentTypes : List String :=
  ["portfolio_analysis", "stock_research", "market_context", "watchlist",
    "fundamental_analysis"]

/-- The invalid-identifier response: the valid identifiers are listed
sorted, as `", ".join(sorted(valid_agent_types))` produces them. -/
def invalidAgentMsg (forceAgent : String) : String :=
  "Invalid agent type " ++ squote ++ forceAgent ++ squote
    ++ ". Valid types are: fundamental_analysis, market_context, portfolio_analysis, stock_research, watchlist"

/-- Embedding of `AgentOrchestrator.process_query`.  Running an agent is
an external effect (broker + LLM calls), so `run_agent` is a parameter;
alongside the envelope we also return the list of workflow identifiers
that were dispatched to `run_agent`.  A `none` or empty `force_agent` is
falsy in Python and falls through to auto-detection. -/
def processQuery (runAgent : String → String → RunAgentResult)
    (query : String) (forceAgent : Option String) : ProcessResult × List String :=
  if forceAgent.getD "" ≠ "" then
    let f := forceAgent.getD ""
    if !(validAgentTypes.contains f) then
      ({ response := some (invalidAgentMsg f)
         used_agent := false
         agent_type := none }, [])
    else
      let result := runAgent f query
      if result.agent_used.getD "" = "" then
        ({ response := some result.response
           used_agent := false
           agent_type := none }, [f])
      else
        ({ response := some result.response
           used_agent := true
           agent_type := result.agent_used }, [f])
  else
    match shouldUseAgent query with
    | (true, some agentType) =>
      if agentType ≠ "" then
        let result := runAgent agentType query
        ({ response := some result.response
           used_agent := true
           agent_type := result.agent_used }, [agentType])
      else
        ({ response := none
           used_agent := false
           agent_type := none }, [])
    | _ =>
      ({ response := none
         used_agent := false
         agent_type := none }, [])

/-- The four-holding portfolio of the C8 example: return percentages
10%, -5%, 0%, -20% (average price 100 throughout). -/
def exampleHoldings : List Holding := [
  { tradingsymbol := "A", quantity := 1, average_price := 100, last_price := 110, pnl := 10 },
  { tradingsymbol := "B", quantity := 1, average_price := 100, last_price := 95, pnl := -5 },
  { tradingsymbol := "C", quantity := 1, average_price := 100, last_price := 100, pnl := 0 },
  { tradingsymbol := "D", quantity := 1, average_price := 100, last_price := 80, pnl := -20 }]

/-- C8: `analyze_performers` computes each holding's return percentage
as `(last_price - avg_price) / avg_price * 100` (0 when the average
price is not positive); for "worst" it returns the holdings sorted
ascending by return percentage and truncated to `top_n`, each output
row coming from an input holding; on the example portfolio with returns
[10%, -5%, 0%, -20%], a top-3 "worst" request yields them ordered
[-20%, -5%, 0%] (holdings D, B, C). -/
theorem analyzePerformers_worst_spec :
    (∀ h : Holding, (analyzeHolding h).return_pct =
      if 0 < h.average_price then (h.last_price - h.average_price) / h.average_price * 100
      else 0)
    ∧ (∀ (holdings : List Holding) (topN : Nat),
        List.Sorted returnPctLe (analyzePerformers holdings "worst" topN))
    ∧ (∀ (holdings : List Holding) (topN : Nat),
        (analyzePerformers holdings "worst" topN).length ≤ topN)
    ∧ (∀ (holdings : List Holding) (analysisType : String) (topN : Nat),
        analyzePerformers holdings analysisType topN ⊆ holdings.map analyzeHolding)
    ∧ ((analyzePerformers exampleHoldings "worst" 3).map AnalyzedStock.return_pct
        = [-20, -5, 0])
    ∧ ((analyzePerformers exampleHoldings "worst" 3).map AnalyzedStock.symbol
        = ["D", "B", "C"]) := by
  have hmap : exampleHoldings.map analyzeHolding = [
      { symbol := "A", quantity := 1, average_price := 100, last_price := 110, pnl := 10,
        return_pct := 10, day_change_pct := 0 },
      { symbol := "B", quantity := 1, average_price := 100, last_price := 95, pnl := -5,
        return_pct := -5, day_change_pct := 0 },
      { symbol := "C", quantity := 1, average_price := 100, last_price := 100, pnl := 0,
        return_pct := 0, day_change_pct := 0 },
      { symbol := "D", quantity := 1, average_price := 100, last_price := 80, pnl := -20,
        return_pct := -20, day_change_pct := 0 }] := by
    simp only [exampleHoldings, List.map, analyzeHolding]
    norm_num
  refine ⟨fun h => rfl, ?_, ?_, ?_, ?_, ?_⟩
  · intro holdings topN
    unfold analyzePerformers
    by_cases he : holdings.isEmpty
    · simp [he]
    · simp only [he, Bool.false_eq_true, if_false, if_pos rfl]
      exact List.Pairwise.sublist (List.take_sublist _ _)
        (List.sorted_insertionSort returnPctLe _)
  · intro holdings topN
    unfold analyzePerformers
    by_cases he : holdings.isEmpty
    · simp [he]
    · simp only [he, Bool.false_eq_true, if_false, if_pos rfl]
      exact List.length_take_le _ _
  · intro holdings analysisType topN
    unfold analyzePerformers
    by_cases he : holdings.isEmpty
    · simp [he]
    · simp only [he, Bool.false_eq_true, if_false]
      split_ifs
      · exact (List.take_subset _ _).trans (List.perm_insertionSort returnPctLe _).subset
      · exact (List.take_subset _ _).trans (List.perm_insertionSort returnPctGe _).subset
      · exact List.take_subset _ _
  · unfold analyzePerformers
    rw [show exampleHoldings.isEmpty = false from rfl]
    simp only [Bool.false_eq_true, if_false, if_pos rfl, hmap]
    norm_num [List.insertionSort, List.orderedInsert, returnPctLe]
  · unfold analyzePerformers
    rw [show exampleHoldings.isEmpty = false from rfl]
    simp only [Bool.false_eq_true, if_false, if_pos rfl, hmap]
    norm_num [List.insertionSort, List.orderedInsert, returnPctLe]

/-- Helper: `fetch_portfolio_node` appends its own name to the step
log whichever branch it takes. -/
theorem fetchPortfolioNode_steps (outcome : HoldingsOutcome) (s : PortfolioState) :
    (fetchPortfolioNode outcome s).steps_completed
      = s.steps_completed ++ ["fetch_portfolio"] := by
  unfold fetchPortfolioNode
  dsimp only
  split_ifs <;> rfl

/-- Helper: `generate_insights_node` appends its own name to the step
log whichever branch it takes. -/
theorem generateInsightsNode_steps (llm : LlmOutcome) (s : PortfolioState) :
    (generateInsightsNode llm s).steps_completed
      = s.steps_completed ++ ["generate_insights"] := by
  unfold generateInsightsNode
  split_ifs <;> rfl

/-- Helper: `extract_symbol_node` appends its own name to the step log
whichever branch it takes. -/
theorem extractSymbolNode_steps (nseNames : List (String × String)) (nseSymbols : List String)
    (s : FundamentalAnalysisState) :
    (extractSymbolNode nseNames nseSymbols s).steps_completed
      = s.steps_completed ++ ["extract_symbol"] := by
  unfold extractSymbolNode
  dsimp only
  split_ifs <;> rfl

/-- Helper: `generate_analysis_node` appends its own name to the step
log whichever branch it takes. -/
theorem generateAnalysisNode_steps (llm : LlmOutcome) (s : FundamentalAnalysisState) :
    (generateAnalysisNode llm s).steps_completed
      = s.steps_completed ++ ["generate_analysis"] := by
  unfold generateAnalysisNode
  split_ifs <;> rfl

/-- C3: in both graphs named by the claim, a run whose entry gathering
node sets the error field executes no node between the entry node and
the synthesis node: the final step log is exactly the entry node's name
followed immediately by the synthesis node's name. -/
theorem workflow_error_short_circuit :
    (∀ (outcome : HoldingsOutcome) (news : List String) (llm : LlmOutcome)
        (query analysisType : String),
      isTruthyError (fetchPortfolioNode outcome
          (initialPortfolioState query analysisType)).error = true →
      (runPortfolioGraph outcome news llm
          (initialPortfolioState query analysisType)).steps_completed
        = ["fetch_portfolio", "generate_insights"])
    ∧ (∀ (nseNames : List (String × String)) (nseSymbols : List String)
        (fund : FundamentalData) (ch : CheckHoldingsOutcome) (news : List String)
        (llm : LlmOutcome) (query : String),
      isTruthyError (extractSymbolNode nseNames nseSymbols
          (initialFundamentalState query "")).error = true →
      (runFundamentalGraph nseNames nseSymbols fund ch news llm
          (initialFundamentalState query "")).steps_completed
        = ["extract_symbol", "generate_analysis"]) := by
  constructor
  · intro outcome news llm query analysisType herr
    unfold runPortfolioGraph
    dsimp only
    rw [show portfolioShouldContinue (fetchPortfolioNode outcome
        (initialPortfolioState query analysisType)) = "generate_insights" from by
      unfold portfolioShouldContinue
      rw [herr]
      rfl]
    rw [if_pos rfl, generateInsightsNode_steps, fetchPortfolioNode_steps]
    rfl
  · intro nseNames nseSymbols fund ch news llm query herr
    unfold runFundamentalGraph
    dsimp only
    rw [show fundamentalShouldContinue (extractSymbolNode nseNames nseSymbols
        (initialFundamentalState query "")) = "generate_analysis" from by
      unfold fundamentalShouldContinue
      rw [herr]
      rfl]
    rw [if_pos rfl, generateAnalysisNode_steps, extractSymbolNode_steps]
    rfl

/-- C3 witness: a portfolio run whose broker call raises an
authentication error, and a fundamental run whose query resolves to no
symbol, both short-circuit to their synthesis node. -/
theorem workflow_error_short_circuit_witness :
    (runPortfolioGraph HoldingsOutcome.authError [] (LlmOutcome.ok "")
        (initialPortfolioState "analyze my portfolio" "worst")).steps_completed
      = ["fetch_portfolio", "generate_insights"]
    ∧ (runFundamentalGraph [] [] { symbol := "X" } CheckHoldingsOutcome.exn []
        (LlmOutcome.ok "") (initialFundamentalState "to do" "")).steps_completed
      = ["extract_symbol", "generate_analysis"] :=
  ⟨workflow_error_short_circuit.1 HoldingsOutcome.authError [] (LlmOutcome.ok "")
      "analyze my portfolio" "worst" (by decide),
   workflow_error_short_circuit.2 [] [] { symbol := "X" } CheckHoldingsOutcome.exn []
      (LlmOutcome.ok "") "to do"
      (by set_option maxRecDepth 40000 in decide)⟩

/-- Helper: no node of the portfolio graph ever writes the
`analysis_type` input field, so a run preserves it. -/
theorem runPortfolioGraph_analysis_type (outcome : HoldingsOutcome) (news : List String)
    (llm : LlmOutcome) (init : PortfolioState) :
    (runPortfolioGraph outcome news llm init).analysis_type = init.analysis_type := by
  unfold runPortfolioGraph
  dsimp only
  split_ifs <;>
    simp [generateInsightsNode, portfolioFetchNewsNode, analyzePerformersNode,
      fetchPortfolioNode] <;>
    split_ifs <;> rfl

/-- C10: `detect_analysis_type` returns only "worst" or "best" (never
"all"): "worst" when a worst-keyword matches (also when keywords of both
lists match, since the worst list is checked first), and "worst" as the
default when neither list matches.  A portfolio run keeps the
`analysis_type` it was launched with, so a run dispatched through
`process_query` — which launches with `detect_analysis_type(query)` —
never reaches `analyze_performers` in its "all" mode. -/
theorem detectAnalysisType_spec :
    (∀ query, detectAnalysisType query = "worst" ∨ detectAnalysisType query = "best")
    ∧ (∀ query, detectAnalysisType query ≠ "all")
    ∧ (∀ query, (["worst", "losing", "loss", "down", "decline", "poor"].any
        (fun w => strContains (strLower query) w)) = true → detectAnalysisType query = "worst")
    ∧ (∀ query, (["worst", "losing", "loss", "down", "decline", "poor"].any
        (fun w => strContains (strLower query) w)) = false →
        (["best", "top", "winning", "gain", "up", "good"].any
          (fun w => strContains (strLower query) w)) = false →
        detectAnalysisType query = "worst")
    ∧ (∀ (query : String) (outcome : HoldingsOutcome) (news : List String) (llm : LlmOutcome),
        (runPortfolioGraph outcome news llm
          (initialPortfolioState query (detectAnalysisType query))).analysis_type
          = detectAnalysisType query) := by
  refine ⟨?_, ?_, ?_, ?_, ?_⟩
  · intro query
    unfold detectAnalysisType
    dsimp only
    split_ifs <;> simp
  · intro query
    unfold detectAnalysisType
    dsimp only
    split_ifs <;> decide
  · intro query h
    unfold detectAnalysisType
    dsimp only
    rw [if_pos h]
  · intro query h1 h2
    unfold detectAnalysisType
    dsimp only
    rw [if_neg (by simp [h1]), if_neg (by simp [h2])]
  · intro query outcome news llm
    rw [runPortfolioGraph_analysis_type]
    rfl

/-- C10 witness: a query with keywords from both lists resolves to
"worst" (worst checked first), and a keyword-free query defaults to
"worst". -/
theorem detectAnalysisType_spec_witness :
    detectAnalysisType "worst and best stocks" = "worst"
    ∧ detectAnalysisType "hello" = "worst" :=
  ⟨detectAnalysisType_spec.2.2.1 "worst and best stocks" (by decide),
   detectAnalysisType_spec.2.2.2.1 "hello" (by decide) (by decide)⟩

/-- C4: forcing a workflow identifier outside the five-element
enumeration makes `process_query` return `used_agent = false` and the
descriptive response naming the valid identifiers, and dispatches no
workflow at all (the invocation list is empty, for every `run_agent`). -/
theorem processQuery_invalid_force (runAgent : String → String → RunAgentResult)
    (query f : String) (hne : f ≠ "") (hnv : validAgentTypes.contains f = false) :
    processQuery runAgent query (some f)
      = ({ response := some (invalidAgentMsg f), used_agent := false, agent_type := none },
         []) := by
  have hnv2 : f ∉ validAgentTypes := by simpa using hnv
  unfold processQuery
  simp [Option.getD, hne, hnv2]

/-- C4 witness: forcing "not_a_real_id" yields the invalid-identifier
envelope and no dispatch. -/
theorem processQuery_invalid_force_witness :
    processQuery (fun _ _ => { response := "", agent_used := none }) "hello"
        (some "not_a_real_id")
      = ({ response := some (invalidAgentMsg "not_a_real_id"), used_agent := false,
           agent_type := none }, []) :=
  processQuery_invalid_force (fun _ _ => { response := "", agent_used := none })
    "hello" "not_a_real_id" (by decide) (by decide)
